import Mathlib

/-!
Verification of the AI-service wrapper (GroqClient) of this repository.

The TypeScript source in src/my-addon/src/services/GroqClient.ts is shallowly
embedded below. Pure helpers become Lean functions; methods that read or write
the mutable fields of the class (the response cache, the configured client)
become explicit state-passing functions. External effects (the Groq HTTP call,
the TensorFlow or NSFW classifiers, the Purgomalum service, navigator.onLine,
Math.random, Date.now, AbortSignal state) are passed in as explicit parameters
describing the outcome of the corresponding effect, so every definition is a
total, executable function. JavaScript string primitives used by the source
(trim, toUpperCase, toLowerCase, startsWith, slice, includes, join, btoa) are
modelled character-exactly for the character sets that occur here.
-/

/-! ### JavaScript string primitives, modelled on lists of characters -/

/-- Model of the JavaScript String.prototype.trim used by the source: drop
whitespace characters from both ends. -/
def jsTrim (s : String) : String :=
  String.mk (((s.data.dropWhile Char.isWhitespace).reverse.dropWhile
    Char.isWhitespace).reverse)

/-- Model of String.prototype.toUpperCase (basic-latin exact, which covers the
ASCII strings the wrapper manipulates). -/
def jsToUpper (s : String) : String :=
  String.mk (s.data.map Char.toUpper)

/-- Model of String.prototype.toLowerCase (basic-latin exact). -/
def jsToLower (s : String) : String :=
  String.mk (s.data.map Char.toLower)

/-- Model of s.slice(0, n): the first n UTF-16 units, here the first n
characters since every string involved is ASCII. -/
def jsSlice (s : String) (n : Nat) : String :=
  String.mk (s.data.take n)

/-- Model of s.startsWith(hash-mark), matching on the first character. -/
def jsStartsWithHash (s : String) : Bool :=
  match s.data with
  | [] => false
  | ch :: _ => ch = '#'

/-- Does the second list occur at the head of the first list. -/
def leadsWith : List Char → List Char → Bool
  | _, [] => true
  | [], _ :: _ => false
  | a :: as, b :: bs => a = b && leadsWith as bs

/-- Does the needle occur contiguously anywhere in the haystack. -/
def containsChars : List Char → List Char → Bool
  | [], needle => leadsWith [] needle
  | a :: t, needle => leadsWith (a :: t) needle || containsChars t needle

/-- Model of String.prototype.includes. -/
def jsIncludes (s sub : String) : Bool :=
  containsChars s.data sub.data

/-- Lowercase ASCII letter test, used to state the uppercase-normalization
invariant of the extracted brand colors. -/
def isLowerAscii (ch : Char) : Bool :=
  decide (97 ≤ ch.toNat ∧ ch.toNat ≤ 122)

/-! ### The browser btoa builtin (standard base64 of the Latin-1 bytes)

The cache keys of the source are built with btoa, so it is modelled exactly:
three input bytes become four alphabet characters, with padding at the end. -/

/-- The standard base64 alphabet. -/
def base64Alphabet : List Char :=
  "ABCDEFGHIJKLMNOPQRSTUVWXYZabcdefghijklmnopqrstuvwxyz0123456789+/".data

/-- The base64 digit for a six-bit value. -/
def b64Char (n : Nat) : Char :=
  base64Alphabet.getD n 'A'

/-- Base64-encode a byte list, three bytes at a time. -/
def btoaChunks : List Nat → List Char
  | [] => []
  | [b1] => [b64Char (b1 / 4), b64Char (b1 % 4 * 16), '=', '=']
  | [b1, b2] => [b64Char (b1 / 4), b64Char (b1 % 4 * 16 + b2 / 16),
      b64Char (b2 % 16 * 4), '=']
  | b1 :: b2 :: b3 :: rest =>
    b64Char (b1 / 4) :: b64Char (b1 % 4 * 16 + b2 / 16) ::
      b64Char (b2 % 16 * 4 + b3 / 64) :: b64Char (b3 % 64) :: btoaChunks rest

/-- Model of the browser btoa builtin on its valid inputs (characters up to
U+00FF, taken as bytes; the contents used by the wrapper are ASCII). -/
def btoa (s : String) : String :=
  String.mk (btoaChunks (s.data.map Char.toNat))

/-! ### Error categorization (GroqClient.categorizeError) -/

/-- The observable shape of a thrown transport error: its optional numeric
status, optional code string and optional message, mirroring the dynamic
fields the source inspects. A missing field is none. -/
structure ErrVal where
  status : Option Int
  code : Option String
  message : Option String
deriving Repr, DecidableEq

/-- The categorized error built by categorizeError: a user-facing message and
the retryable flag. -/
structure CatErr where
  message : String
  isRetryable : Bool
deriving Repr, DecidableEq

/-- Embedding of GroqClient.categorizeError. The online flag models
navigator.onLine, checked first. -/
def categorizeError (online : Bool) (e : ErrVal) : CatErr :=
  if online = false then
    ⟨"No internet connection. Please check your network and try again.", true⟩
  else if e.status = some 429 then
    ⟨"Too many requests. Please wait a moment and try again.", true⟩
  else if e.status = some 401 then
    ⟨"API key is invalid or expired. Please check your settings.", false⟩
  else if e.status = some 403 then
    ⟨"Access denied. Please check your API key permissions.", false⟩
  else if (match e.status with
           | some s => decide (500 ≤ s)
           | none => false : Bool) = true then
    ⟨"Server error. Please try again in a few moments.", true⟩
  else if (e.code == some "ECONNABORTED"
      || (match e.message with
          | some m => jsIncludes m "timeout"
          | none => false)) = true then
    ⟨"Request timed out. Please try again.", true⟩
  else
    ⟨(match e.message with
      | some m => if m = "" then "An unexpected error occurred. Please try again." else m
      | none => "An unexpected error occurred. Please try again."), true⟩

/-! ### Retry with exponential backoff (GroqClient.retryWithBackoff) -/

/-- The observable trace of one retryWithBackoff run: its outcome, the number
of times the wrapped operation was invoked, and the list of waits (in
milliseconds) performed between consecutive attempts. -/
structure RetryTrace (α : Type) where
  result : Except CatErr α
  calls : Nat
  delays : List Nat
deriving Repr

/-- The loop body of retryWithBackoff: remaining counts the attempts still
allowed after the current one (the source loops attempt = 0 .. maxRetries and
throws the categorized error when attempt equals maxRetries). The operation
outcome at each attempt index is given by op, the jitter drawn by Math.random
at each wait by jitter. -/
def retryAux {α : Type} (op : Nat → Except ErrVal α) (online : Bool)
    (jitter : Nat → Nat) (baseDelay : Nat) : Nat → Nat → RetryTrace α
  | remaining, attempt =>
    match op attempt with
    | .ok v => ⟨.ok v, 1, []⟩
    | .error err =>
      let cat := categorizeError online err
      if cat.isRetryable then
        match remaining with
        | 0 => ⟨.error cat, 1, []⟩
        | r + 1 =>
          let d := baseDelay * 2 ^ attempt + jitter attempt
          let rest := retryAux op online jitter baseDelay r (attempt + 1)
          ⟨rest.result, rest.calls + 1, d :: rest.delays⟩
      else ⟨.error cat, 1, []⟩

/-- Embedding of GroqClient.retryWithBackoff; the source defaults are
maxRetries = 3 (four attempts) and baseDelay = 1000. -/
def retryWithBackoff {α : Type} (op : Nat → Except ErrVal α) (online : Bool)
    (jitter : Nat → Nat) (maxRetries : Nat) (baseDelay : Nat) : RetryTrace α :=
  retryAux op online jitter baseDelay maxRetries 0

/-! ### The in-memory response cache (GroqClient.cache, getCachedData, setCachedData)

The source holds a single untyped Map whose values are brand profiles under
brand-prefixed keys and audit results under design-prefixed keys; since these
key families are disjoint (proved below for the claim about cache keys), the
map is modelled as a typed finite map per value type, as a function from keys
to optional entries. -/

/-- One cache entry: the stored value, the write time and the time to live,
all in milliseconds as in the source. Times are integers, as JavaScript
arithmetic on Date.now values is. -/
structure CacheEntry (α : Type) where
  data : α
  timestamp : Int
  ttl : Int
deriving Repr

/-- The cache: a map from string keys to optional entries. -/
def Cache (α : Type) : Type := String → Option (CacheEntry α)

/-- The empty cache of a fresh client instance. -/
def emptyCache {α : Type} : Cache α := fun _ => none

/-- Map deletion, used by the lazy eviction in getCachedData. -/
def cacheDelete {α : Type} (c : Cache α) (key : String) : Cache α :=
  fun k => if k = key then none else c k

/-- Embedding of GroqClient.getCachedData: a hit is returned while
now - timestamp < ttl and the cache is untouched; an expired entry is deleted
and a miss reported; an absent key is a miss. Returns the looked-up value and
the cache state afterwards. -/
def getCachedData {α : Type} (now : Int) (c : Cache α) (key : String) :
    Option α × Cache α :=
  match c key with
  | some e =>
    if now - e.timestamp < e.ttl then (some e.data, c)
    else (none, cacheDelete c key)
  | none => (none, c)

/-- Embedding of GroqClient.setCachedData: store the value with the current
time and the given ttl (the source default is 30 * 60 * 1000). -/
def setCachedData {α : Type} (c : Cache α) (key : String) (data : α)
    (now : Int) (ttl : Int) : Cache α :=
  fun k => if k = key then some ⟨data, now, ttl⟩ else c k

/-! ### API-key handling (GroqClient.setApiKey, GroqClient.ensureClient)

The client field of the class is modelled by an optional string: none when no
usable credential is configured, some trimmed key once one is. -/

/-- Embedding of GroqClient.setApiKey: a missing, non-string or blank key
resets the client to unconfigured; otherwise the trimmed key is stored and the
SDK client constructed. The first argument is the previous state, which the
source overwrites unconditionally. -/
def setApiKey (st : Option String) (apiKey : Option String) : Option String :=
  match st, apiKey with
  | _, none => none
  | _, some k => if jsTrim k = "" then none else some (jsTrim k)

/-- Embedding of GroqClient.ensureClient: fail with the configuration error
when no client is configured, otherwise hand the client back. -/
def ensureClient (st : Option String) : Except String String :=
  match st with
  | none => .error "Groq API key not configured. Set your Groq API key in Settings."
  | some c => .ok c

/-! ### Content moderation (containsToxicContent, containsExplicitContent)

Each checker is a total boolean function; the outcomes of the external
classifiers are explicit parameters. An error outcome models any failure or
timeout of that path (including a missing API key inside the Groq fallback,
whose exception the source catches in the same way). -/

/-- Embedding of GroqClient.containsToxicContent. The text is none when the
argument is not a string; tf is the outcome of the TensorFlow classification
race (timeout or load failure is error); groq is the outcome of the fallback
prompted classification, carrying the optional response content. -/
def containsToxicContent (text : Option String) (tf : Except Unit Bool)
    (groq : Except Unit (Option String)) : Bool :=
  match text with
  | none => false
  | some t =>
    if t = "" then false
    else
      match tf with
      | .ok verdict => verdict
      | .error _ =>
        match groq with
        | .error _ => false
        | .ok content =>
          match content with
          | none => false
          | some r => jsToUpper (jsTrim r) = "YES"

/-- Embedding of GroqClient.containsExplicitContent (the Purgomalum check).
The response parameter is error on a thrown fetch failure, otherwise carries
the ok flag of the HTTP response and its body text. -/
def containsExplicitContent (text : Option String)
    (resp : Except Unit (Bool × String)) : Bool :=
  match text with
  | none => false
  | some t =>
    if t = "" then false
    else
      match resp with
      | .error _ => false
      | .ok (okFlag, body) =>
        if okFlag = false then false
        else jsToLower (jsTrim body) = "true"

/-! ### Brand-profile validation (the parse and validate step of
extractBrandIdentity, source lines 489 to 512)

The parsed model response is modelled by its three required fields; an absent
or wrongly-typed field is none. The optional passthrough fields (typography,
spacing, layoutPatterns, websiteScreenshot) carry no validation in the source
and are omitted from the model. -/

/-- The parsed JSON of the model response, before validation. -/
structure RawBrand where
  primaryColors : Option (List (Option String))
  brandVoice : Option String
  designGuidelines : Option (List String)
deriving Repr

/-- The validated brand profile (source interface BrandData, required
fields). -/
structure BrandData where
  primaryColors : List String
  brandVoice : String
  designGuidelines : List String
deriving Repr, DecidableEq

/-- Normalization of one color (source lines 494 to 501): reject a non-string
or blank entry, prepend the hash mark when absent, uppercase. -/
def normalizeColor : Option String → Except String String
  | none => .error "Invalid color format in brand analysis"
  | some c =>
    if jsTrim c = "" then .error "Invalid color format in brand analysis"
    else .ok (jsToUpper (if jsStartsWithHash c then c else "#" ++ c))

/-- The map with exceptions over the color list. -/
def normalizeColors : List (Option String) → Except String (List String)
  | [] => .ok []
  | c :: rest =>
    match normalizeColor c with
    | .error m => .error m
    | .ok s =>
      match normalizeColors rest with
      | .error m => .error m
      | .ok ss => .ok (s :: ss)

/-- Embedding of the validation performed by extractBrandIdentity on the
parsed response: color count checked then the first five normalized, brand
voice checked for trimmed length at least 20, guidelines checked for count at
least 4 then cut to 4. -/
def validateBrandData (b : RawBrand) : Except String BrandData :=
  match b.primaryColors with
  | none => .error "Invalid brand analysis: missing or insufficient primary colors"
  | some cs =>
    if cs.length < 3 then
      .error "Invalid brand analysis: missing or insufficient primary colors"
    else
      match normalizeColors (cs.take 5) with
      | .error m => .error m
      | .ok colors =>
        match b.brandVoice with
        | none => .error "Invalid brand analysis: insufficient brand voice description"
        | some v =>
          if (jsTrim v).length < 20 then
            .error "Invalid brand analysis: insufficient brand voice description"
          else
            match b.designGuidelines with
            | none => .error "Invalid brand analysis: insufficient design guidelines"
            | some gs =>
              if gs.length < 4 then
                .error "Invalid brand analysis: insufficient design guidelines"
              else .ok ⟨colors, v, gs.take 4⟩

/-! ### Design-audit validation (the clamp and default step of analyzeDesign,
source lines 819 to 838) -/

/-- The parsed JSON of the audit response: each score is none when missing,
null or not a number (isNaN after coercion), and each list is none when not an
array. -/
structure RawAnalysis where
  score : Option Int
  colorConsistency : Option Int
  typographyScale : Option Int
  spacingRhythm : Option Int
  accessibility : Option Int
  feedback : Option (List String)
  recommendations : Option (List String)
deriving Repr

/-- The validated audit result (source interface VisionAnalysis). -/
structure VisionAnalysis where
  score : Int
  colorConsistency : Int
  typographyScale : Int
  spacingRhythm : Int
  accessibility : Int
  feedback : List String
  recommendations : List String
deriving Repr, DecidableEq

/-- Embedding of the clampScore helper of analyzeDesign: a missing score takes
the default, a present one is clamped into 0 to 100 (it is already an integer
in the model, so rounding is the identity). -/
def clampScore (s : Option Int) (defaultVal : Int) : Int :=
  match s with
  | none => defaultVal
  | some v => max 0 (min 100 v)

/-- Embedding of the result normalization of analyzeDesign: every score
clamped with default 50, each list cut to five entries or replaced by its
documented single-string fallback when missing or empty. -/
def analyzeDesignValidate (a : RawAnalysis) : VisionAnalysis :=
  ⟨clampScore a.score 50,
   clampScore a.colorConsistency 50,
   clampScore a.typographyScale 50,
   clampScore a.spacingRhythm 50,
   clampScore a.accessibility 50,
   (match a.feedback with
    | some (x :: xs) => (x :: xs).take 5
    | some [] => ["Design analysis completed. Review metrics for details."]
    | none => ["Design analysis completed. Review metrics for details."]),
   (match a.recommendations with
    | some (x :: xs) => (x :: xs).take 5
    | some [] => ["Continue refining design based on brand guidelines."]
    | none => ["Continue refining design based on brand guidelines."])⟩

/-! ### Cache keys (extractBrandIdentity line 352, analyzeDesign lines 704 to 706) -/

/-- The brand-extraction cache key: operation tag, language, input mode, and
the first 50 characters of the base64 of the website content. -/
def brandCacheKey (language : String) (hasScreenshot : Bool)
    (websiteContent : String) : String :=
  "brand_" ++ language ++ "_"
    ++ (if hasScreenshot then "with_image" else "text_only") ++ "_"
    ++ jsSlice (btoa websiteContent) 50

/-- The design-audit cache key: operation tag, language, the first 20
characters of the base64 of the image, and the brand colors joined with
underscores. -/
def designCacheKey (language : String) (imageBase64 : String)
    (primaryColors : List String) : String :=
  "design_" ++ language ++ "_" ++ jsSlice (btoa imageBase64) 20 ++ "_"
    ++ String.intercalate "_" primaryColors

/-! ### The four public operations of the facade

Each method is embedded as a state-passing function over the cache, with the
outcomes of the external effects as parameters: inputToxic and related flags
are the verdicts of the moderation checks (themselves modelled above),
network is the outcome of the retried Groq call with the response already
parsed from JSON (its error carries the categorized or parse failure message),
and outputToxic is the moderation verdict on the generated content. Error
strings are wrapped exactly as the try-catch of each method wraps them. -/

/-- The thirty-minute default ttl of setCachedData. -/
def defaultTTL : Int := 30 * 60 * 1000

/-- Embedding of GroqClient.extractBrandIdentity. The signalAborted parameter
models the state of the optional AbortSignal argument of the source method;
the source declares the parameter and never reads it, and the embedding
mirrors that faithfully. Order of the source: cache lookup, input moderation,
client check, network call, output moderation, validation, cache write. -/
def extractBrandIdentity (cache : Cache BrandData) (now : Int)
    (client : Option String) (websiteContent language : String)
    (hasScreenshot : Bool) (signalAborted : Bool)
    (inputToxic screenshotNSFW : Bool) (network : Except String RawBrand)
    (outputToxic : Bool) : Except String BrandData × Cache BrandData :=
  let cacheKey := brandCacheKey language hasScreenshot websiteContent
  match getCachedData now cache cacheKey with
  | (some v, c) => (.ok v, c)
  | (none, c) =>
    if inputToxic then
      (.error "Input content contains inappropriate material. Please provide clean content.", c)
    else if hasScreenshot && screenshotNSFW then
      (.error "Input image contains inappropriate material. Please provide clean content.", c)
    else
      match ensureClient client with
      | .error m => (.error ("Brand analysis failed: " ++ m), c)
      | .ok _ =>
        match network with
        | .error m => (.error ("Brand analysis failed: " ++ m), c)
        | .ok raw =>
          if outputToxic then
            (.error "Brand analysis failed: Generated content contains inappropriate material. Please try again.", c)
          else
            match validateBrandData raw with
            | .error m => (.error ("Brand analysis failed: " ++ m), c)
            | .ok brandData =>
              (.ok brandData, setCachedData c cacheKey brandData now defaultTTL)

/-- Embedding of GroqClient.generateFireflyPrompt. The method never touches
the cache; the cache parameter is threaded through to make that frame
property a statement about the embedding. The network parameter carries the
optional content of the completion. -/
def generateFireflyPrompt {α : Type} (cache : Cache α) (client : Option String)
    (trendToxic brandVoiceToxic : Bool)
    (network : Except String (Option String)) (outputToxic : Bool) :
    Except String String × Cache α :=
  if trendToxic || brandVoiceToxic then
    (.error "Input content contains inappropriate material. Please provide clean content.", cache)
  else
    match ensureClient client with
    | .error m => (.error ("Firefly prompt generation failed: " ++ m), cache)
    | .ok _ =>
      match network with
      | .error m => (.error ("Firefly prompt generation failed: " ++ m), cache)
      | .ok content =>
        match content with
        | none =>
          (.error "Firefly prompt generation failed: Invalid response from Firefly prompt generator", cache)
        | some r =>
          if (jsTrim r).length < 10 then
            (.error "Firefly prompt generation failed: Invalid response from Firefly prompt generator", cache)
          else if outputToxic then
            (.error "Firefly prompt generation failed: Generated content contains inappropriate material. Please try again.", cache)
          else (.ok r, cache)

/-- One suggested trend of getViralTrends. -/
structure Trend where
  id : String
  name : String
  desc : String
deriving Repr, DecidableEq

/-- Embedding of GroqClient.getViralTrends. As with the prompt generator, the
method never touches the cache and the cache parameter is only threaded
through. The network parameter carries the parsed trend array; outputToxic is
the verdict of the per-trend moderation loop, which the source runs before the
emptiness validation. -/
def getViralTrends {α : Type} (cache : Cache α) (client : Option String)
    (inputToxic : Bool) (network : Except String (List Trend))
    (outputToxic : Bool) : Except String (List Trend) × Cache α :=
  if inputToxic then
    (.error "Input content contains inappropriate material. Please provide clean content.", cache)
  else
    match ensureClient client with
    | .error m => (.error ("Trend analysis failed: " ++ m), cache)
    | .ok _ =>
      match network with
      | .error m => (.error ("Trend analysis failed: " ++ m), cache)
      | .ok trends =>
        if outputToxic then
          (.error "Trend analysis failed: Generated content contains inappropriate material. Please try again.", cache)
        else if trends.length = 0 then
          (.error "Trend analysis failed: Invalid trends response", cache)
        else (.ok trends, cache)

/-- Embedding of GroqClient.analyzeDesign. Order of the source: cache lookup,
input moderation of the brand text then of the image, client check, network
call, clamp and default normalization, output moderation, cache write. -/
def analyzeDesign (cache : Cache VisionAnalysis) (now : Int)
    (client : Option String) (imageBase64 language : String)
    (primaryColors : List String) (inputToxic imageNSFW : Bool)
    (network : Except String RawAnalysis) (outputToxic : Bool) :
    Except String VisionAnalysis × Cache VisionAnalysis :=
  let cacheKey := designCacheKey language imageBase64 primaryColors
  match getCachedData now cache cacheKey with
  | (some v, c) => (.ok v, c)
  | (none, c) =>
    if inputToxic then
      (.error "Input content contains inappropriate material. Please provide clean content.", c)
    else if imageNSFW then
      (.error "Input image contains inappropriate material. Please provide clean content.", c)
    else
      match ensureClient client with
      | .error m => (.error ("Design analysis failed: " ++ m), c)
      | .ok _ =>
        match network with
        | .error m => (.error ("Design analysis failed: " ++ m), c)
        | .ok raw =>
          let result := analyzeDesignValidate raw
          if outputToxic then
            (.error "Design analysis failed: Generated content contains inappropriate material. Please try again.", c)
          else (.ok result, setCachedData c cacheKey result now defaultTTL)

/-- The color format asserted by the specification sentence about extraction
results: a hash mark followed by exactly six uppercase hexadecimal digits.
Stated from the specification words, to compare with what the source
guarantees. -/
def isHex6Upper (s : String) : Bool :=
  match s.data with
  | [] => false
  | ch :: rest =>
    ch = '#' && rest.length = 6
      && rest.all (fun c => c.isDigit || (65 ≤ c.toNat && c.toNat ≤ 70))

/-- Statement helper: is an exceptional outcome an error. -/
def isError {ε α : Type} : Except ε α → Bool
  | .error _ => true
  | .ok _ => false

/-! ## Helper lemmas -/

theorem toNat_char_ofNat_of_lt {n : Nat} (h : n < 55296) : (Char.ofNat n).toNat = n := by
  have hv : n.isValidChar := Or.inl h
  unfold Char.ofNat
  rw [dif_pos hv]
  unfold Char.ofNatAux Char.toNat
  simp [UInt32.toNat]

theorem isLowerAscii_toUpper (ch : Char) : isLowerAscii ch.toUpper = false := by
  unfold Char.toUpper
  by_cases h : ch.toNat ≥ 97 ∧ ch.toNat ≤ 122
  · rw [if_pos h]
    have h32 : ch.toNat - 32 < 55296 := by omega
    unfold isLowerAscii
    rw [toNat_char_ofNat_of_lt h32]
    simp only [decide_eq_false_iff_not]
    omega
  · rw [if_neg h]
    unfold isLowerAscii
    simp only [decide_eq_false_iff_not]
    omega

/-! ## Claims about the retry executor -/

/-- Claim C1: with the default parameters (four attempts, base delay 1000 ms),
when the first three attempts fail with retryably-categorized errors, the
executor waits 1000 * 2 ^ attempt plus a jitter below 1000 ms between
attempts, those delays are non-decreasing, a success on the fourth attempt is
returned, and when the fourth attempt also fails the last categorized error is
raised after exactly four invocations. -/
theorem retry_backoff_default {α : Type} (op : Nat → Except ErrVal α)
    (online : Bool) (jitter : Nat → Nat) (e : Nat → ErrVal)
    (hj : ∀ i, jitter i < 1000)
    (hop0 : op 0 = .error (e 0)) (hop1 : op 1 = .error (e 1))
    (hop2 : op 2 = .error (e 2))
    (hr0 : (categorizeError online (e 0)).isRetryable = true)
    (hr1 : (categorizeError online (e 1)).isRetryable = true)
    (hr2 : (categorizeError online (e 2)).isRetryable = true) :
    (retryWithBackoff op online jitter 3 1000).delays
      = [1000 * 2 ^ 0 + jitter 0, 1000 * 2 ^ 1 + jitter 1, 1000 * 2 ^ 2 + jitter 2]
    ∧ List.Pairwise (fun a b => a ≤ b) (retryWithBackoff op online jitter 3 1000).delays
    ∧ (∀ v, op 3 = .ok v →
        (retryWithBackoff op online jitter 3 1000).result = .ok v
        ∧ (retryWithBackoff op online jitter 3 1000).calls = 4)
    ∧ (∀ e3, op 3 = .error e3 →
        (retryWithBackoff op online jitter 3 1000).result
            = .error (categorizeError online e3)
        ∧ (retryWithBackoff op online jitter 3 1000).calls = 4) := by
  have hd : ∀ t : RetryTrace α,
      t.delays = [1000 * 2 ^ 0 + jitter 0, 1000 * 2 ^ 1 + jitter 1, 1000 * 2 ^ 2 + jitter 2]
      → List.Pairwise (fun a b => a ≤ b) t.delays := by
    intro t ht
    rw [ht]
    have j0 := hj 0
    have j1 := hj 1
    have j2 := hj 2
    have p0 : (2 : Nat) ^ 0 = 1 := rfl
    have p1 : (2 : Nat) ^ 1 = 2 := rfl
    have p2 : (2 : Nat) ^ 2 = 4 := rfl
    rw [p0, p1, p2]
    refine List.Pairwise.cons (fun b hb => ?_)
      (List.Pairwise.cons (fun b hb => ?_) (List.pairwise_singleton _ _))
    · simp only [List.mem_cons, List.mem_singleton, List.not_mem_nil, or_false] at hb
      rcases hb with rfl | rfl <;> omega
    · simp only [List.mem_cons, List.mem_singleton, List.not_mem_nil, or_false] at hb
      subst hb
      omega
  rcases h3 : op 3 with e3 | v
  · have key : retryWithBackoff op online jitter 3 1000
        = ⟨.error (categorizeError online e3), 4,
           [1000 * 2 ^ 0 + jitter 0, 1000 * 2 ^ 1 + jitter 1, 1000 * 2 ^ 2 + jitter 2]⟩ := by
      simp [retryWithBackoff, retryAux, hop0, hop1, hop2, h3, hr0, hr1, hr2]
    refine ⟨by rw [key], hd _ (by rw [key]), ?_, ?_⟩
    · intro v hv
      exact absurd hv (by simp)
    · intro e3x hx
      cases hx
      exact ⟨by rw [key], by rw [key]⟩
  · have key : retryWithBackoff op online jitter 3 1000
        = ⟨.ok v, 4,
           [1000 * 2 ^ 0 + jitter 0, 1000 * 2 ^ 1 + jitter 1, 1000 * 2 ^ 2 + jitter 2]⟩ := by
      simp [retryWithBackoff, retryAux, hop0, hop1, hop2, h3, hr0, hr1, hr2]
    refine ⟨by rw [key], hd _ (by rw [key]), ?_, ?_⟩
    · intro vx hv
      cases hv
      exact ⟨by rw [key], by rw [key]⟩
    · intro e3x hx
      exact absurd hx (by simp)

/-- Witness for claim C1 at a concrete operation: three 429 failures followed
by a success. -/
theorem retry_backoff_default_witness :
    (retryWithBackoff
        (fun i => if i < 3 then .error ⟨some 429, none, none⟩ else .ok 42)
        true (fun _ => 0) 3 1000).delays = [1000 * 2 ^ 0 + 0, 1000 * 2 ^ 1 + 0, 1000 * 2 ^ 2 + 0]
    ∧ List.Pairwise (fun a b => a ≤ b)
        (retryWithBackoff
          (fun i => if i < 3 then .error ⟨some 429, none, none⟩ else .ok 42)
          true (fun _ => 0) 3 1000).delays
    ∧ (∀ v, (if 3 < 3 then (.error ⟨some 429, none, none⟩ : Except ErrVal Nat) else .ok 42) = .ok v →
        (retryWithBackoff
          (fun i => if i < 3 then .error ⟨some 429, none, none⟩ else .ok 42)
          true (fun _ => 0) 3 1000).result = .ok v
        ∧ (retryWithBackoff
          (fun i => if i < 3 then .error ⟨some 429, none, none⟩ else .ok 42)
          true (fun _ => 0) 3 1000).calls = 4)
    ∧ (∀ e3, (if 3 < 3 then (.error ⟨some 429, none, none⟩ : Except ErrVal Nat) else .ok 42) = .error e3 →
        (retryWithBackoff
          (fun i => if i < 3 then .error ⟨some 429, none, none⟩ else .ok 42)
          true (fun _ => 0) 3 1000).result = .error (categorizeError true e3)
        ∧ (retryWithBackoff
          (fun i => if i < 3 then .error ⟨some 429, none, none⟩ else .ok 42)
          true (fun _ => 0) 3 1000).calls = 4) :=
  retry_backoff_default
    (fun i => if i < 3 then .error ⟨some 429, none, none⟩ else .ok 42)
    true (fun _ => 0) (fun _ => ⟨some 429, none, none⟩)
    (fun _ => by norm_num)
    (by simp) (by simp) (by simp)
    (by rfl) (by rfl) (by rfl)

/-- Claim C2: an error categorized as terminal because its status is 401 or
403 makes the executor invoke the operation exactly once, perform no waits and
raise the categorized error at once, whatever the remaining attempt budget
is. -/
theorem retry_terminal_no_retry {α : Type} (op : Nat → Except ErrVal α)
    (jitter : Nat → Nat) (maxRetries baseDelay : Nat) (e : ErrVal)
    (hop : op 0 = .error e)
    (hstatus : e.status = some 401 ∨ e.status = some 403) :
    (categorizeError true e).isRetryable = false
    ∧ retryWithBackoff op true jitter maxRetries baseDelay
      = ⟨.error (categorizeError true e), 1, []⟩ := by
  have hcat : (categorizeError true e).isRetryable = false := by
    rcases hstatus with h | h <;> simp [categorizeError, h]
  refine ⟨hcat, ?_⟩
  simp [retryWithBackoff, retryAux, hop, hcat]

/-- Witness for claim C2 at a concrete 401 failure. -/
theorem retry_terminal_no_retry_witness :
    (categorizeError true ⟨some 401, none, some "Unauthorized"⟩).isRetryable = false
    ∧ retryWithBackoff (fun _ => (.error ⟨some 401, none, some "Unauthorized"⟩ : Except ErrVal Nat))
        true (fun _ => 7) 3 1000
      = ⟨.error (categorizeError true ⟨some 401, none, some "Unauthorized"⟩), 1, []⟩ :=
  retry_terminal_no_retry (fun _ => .error ⟨some 401, none, some "Unauthorized"⟩)
    (fun _ => 7) 3 1000 ⟨some 401, none, some "Unauthorized"⟩ rfl (Or.inl rfl)

theorem string_mk_data (l : List Char) : (String.mk l).data = l := rfl

theorem jsToUpper_no_lower (s : String) :
    ∀ ch ∈ (jsToUpper s).data, isLowerAscii ch = false := by
  intro ch hch
  rw [jsToUpper, string_mk_data] at hch
  rcases List.mem_map.mp hch with ⟨a, _, rfl⟩
  exact isLowerAscii_toUpper a

theorem jsStartsWithHash_toUpper (s : String) (h : jsStartsWithHash s = true) :
    jsStartsWithHash (jsToUpper s) = true := by
  rw [jsToUpper]
  unfold jsStartsWithHash at h ⊢
  rw [string_mk_data]
  rcases hsd : s.data with _ | ⟨ch, t⟩
  · rw [hsd] at h
    exact absurd h (by simp)
  · rw [hsd] at h
    have hc : ch = '#' := by simpa using h
    subst hc
    simp only [List.map_cons]
    simp

theorem jsStartsWithHash_hashAppend (s : String) :
    jsStartsWithHash ("#" ++ s) = true := by
  have hdata : ("#" ++ s).data = '#' :: s.data := by
    rw [String.data_append]
    rfl
  unfold jsStartsWithHash
  rw [hdata]
  simp

theorem normalizeColor_ok {c : Option String} {r : String}
    (h : normalizeColor c = .ok r) :
    jsStartsWithHash r = true ∧ ∀ ch ∈ r.data, isLowerAscii ch = false := by
  cases c with
  | none => exact absurd h (by simp [normalizeColor])
  | some s =>
    rw [normalizeColor] at h
    by_cases hne : jsTrim s = ""
    · rw [if_pos hne] at h
      exact absurd h (by simp)
    · rw [if_neg hne] at h
      cases h
      refine ⟨?_, jsToUpper_no_lower _⟩
      by_cases hs : jsStartsWithHash s = true
      · rw [if_pos hs]
        exact jsStartsWithHash_toUpper s hs
      · rw [if_neg hs]
        exact jsStartsWithHash_toUpper _ (jsStartsWithHash_hashAppend s)

theorem normalizeColors_ok {cs : List (Option String)} {rs : List String}
    (h : normalizeColors cs = .ok rs) :
    rs.length = cs.length
    ∧ ∀ r ∈ rs, jsStartsWithHash r = true ∧ ∀ ch ∈ r.data, isLowerAscii ch = false := by
  induction cs generalizing rs with
  | nil =>
    rw [normalizeColors] at h
    cases h
    simp
  | cons c rest ih =>
    rw [normalizeColors] at h
    cases hc : normalizeColor c with
    | error m => rw [hc] at h; exact absurd h (by simp)
    | ok s =>
      rw [hc] at h
      cases hrest : normalizeColors rest with
      | error m => rw [hrest] at h; exact absurd h (by simp)
      | ok ss =>
        rw [hrest] at h
        cases h
        obtain ⟨hlen, hmem⟩ := ih hrest
        refine ⟨by simp [hlen], ?_⟩
        intro r hr
        rcases List.mem_cons.mp hr with rfl | hr
        · exact normalizeColor_ok hc
        · exact hmem r hr

theorem validateBrandData_ok_inv {b : RawBrand} {out : BrandData}
    (h : validateBrandData b = .ok out) :
    ∃ cs v gs, b.primaryColors = some cs ∧ ¬cs.length < 3
      ∧ normalizeColors (cs.take 5) = .ok out.primaryColors
      ∧ b.brandVoice = some v ∧ ¬(jsTrim v).length < 20 ∧ out.brandVoice = v
      ∧ b.designGuidelines = some gs ∧ ¬gs.length < 4
      ∧ out.designGuidelines = gs.take 4 := by
  rw [validateBrandData] at h
  split at h
  · exact absurd h (by simp)
  · rename_i cs hpc
    split at h
    · exact absurd h (by simp)
    · rename_i hlen
      split at h
      · exact absurd h (by simp)
      · rename_i colors hnc
        split at h
        · exact absurd h (by simp)
        · rename_i v hbv
          split at h
          · exact absurd h (by simp)
          · rename_i hv
            split at h
            · exact absurd h (by simp)
            · rename_i gs hdg
              split at h
              · exact absurd h (by simp)
              · rename_i hg
                cases h
                exact ⟨cs, v, gs, hpc, hlen, hnc, hbv, hv, rfl, hdg, hg, rfl⟩

/-- Claim C3 (amended): every profile accepted by the validation step of brand
extraction has between 3 and 5 colors, each starting with a hash mark and
containing no lowercase ascii letter, a brand voice of trimmed length at least
20 and exactly 4 design guidelines; a response with fewer than 3 colors, a
missing or too-short brand voice, or fewer than 4 guidelines is rejected with
an error, never defaulted. The further assertion of the original claim, that
each color is a hash mark plus exactly six hexadecimal digits, is refuted by
the counterexample below: the source only prepends the hash mark and
uppercases, without checking hexadecimal shape. -/
theorem brand_profile_validation :
    (∀ b out, validateBrandData b = .ok out →
      (3 ≤ out.primaryColors.length ∧ out.primaryColors.length ≤ 5)
      ∧ (∀ c ∈ out.primaryColors,
          jsStartsWithHash c = true ∧ ∀ ch ∈ c.data, isLowerAscii ch = false)
      ∧ 20 ≤ (jsTrim out.brandVoice).length
      ∧ out.designGuidelines.length = 4)
    ∧ (∀ b, b.primaryColors = none → isError (validateBrandData b) = true)
    ∧ (∀ b cs, b.primaryColors = some cs → cs.length < 3 →
        isError (validateBrandData b) = true)
    ∧ (∀ b, b.brandVoice = none → isError (validateBrandData b) = true)
    ∧ (∀ b v, b.brandVoice = some v → (jsTrim v).length < 20 →
        isError (validateBrandData b) = true)
    ∧ (∀ b, b.designGuidelines = none → isError (validateBrandData b) = true)
    ∧ (∀ b gs, b.designGuidelines = some gs → gs.length < 4 →
        isError (validateBrandData b) = true) := by
  have inv := @validateBrandData_ok_inv
  have notOk : ∀ (b : RawBrand),
      (∀ out, validateBrandData b = .ok out → False) →
      isError (validateBrandData b) = true := by
    intro b hno
    cases hE : validateBrandData b with
    | error m => rfl
    | ok out => exact absurd hE (fun hE => hno out hE)
  refine ⟨?_, ?_, ?_, ?_, ?_, ?_, ?_⟩
  · intro b out h
    obtain ⟨cs, v, gs, hpc, hlen, hnc, hbv, hv, hove, hdg, hg, hodg⟩ := inv h
    obtain ⟨hclen, hcmem⟩ := normalizeColors_ok hnc
    have htk : (cs.take 5).length = min 5 cs.length := List.length_take 5 cs
    refine ⟨⟨?_, ?_⟩, hcmem, ?_, ?_⟩
    · omega
    · omega
    · rw [hove]; omega
    · rw [hodg, List.length_take]; omega
  · intro b hpc
    refine notOk b (fun out h => ?_)
    obtain ⟨cs, _, _, hpc2, _⟩ := inv h
    rw [hpc] at hpc2
    exact absurd hpc2 (by simp)
  · intro b cs hpc hlt
    refine notOk b (fun out h => ?_)
    obtain ⟨cs2, _, _, hpc2, hlen2, _⟩ := inv h
    rw [hpc] at hpc2
    cases hpc2
    exact hlen2 hlt
  · intro b hbv
    refine notOk b (fun out h => ?_)
    obtain ⟨_, v, _, _, _, _, hbv2, _⟩ := inv h
    rw [hbv] at hbv2
    exact absurd hbv2 (by simp)
  · intro b v hbv hlt
    refine notOk b (fun out h => ?_)
    obtain ⟨_, v2, _, _, _, _, hbv2, hv2, _⟩ := inv h
    rw [hbv] at hbv2
    cases hbv2
    exact hv2 hlt
  · intro b hdg
    refine notOk b (fun out h => ?_)
    obtain ⟨_, _, gs, _, _, _, _, _, _, hdg2, _⟩ := inv h
    rw [hdg] at hdg2
    exact absurd hdg2 (by simp)
  · intro b gs hdg hlt
    refine notOk b (fun out h => ?_)
    obtain ⟨_, _, gs2, _, _, _, _, _, _, hdg2, hg2, _⟩ := inv h
    rw [hdg] at hdg2
    cases hdg2
    exact hg2 hlt

/-- Counterexample for claim C3 as stated: a model response whose colors are
plain words passes validation and is returned with colors that are not six
hexadecimal digits, through the full extraction pipeline. -/
theorem brand_profile_validation_counterexample :
    (extractBrandIdentity emptyCache 0 (some "key") "site content" "en" false
        false false false
        (.ok ⟨some [some "red", some "green", some "blue"],
              some "A clean and modern payments platform brand.",
              some ["a", "b", "c", "d"]⟩) false).1
      = .ok ⟨["#RED", "#GREEN", "#BLUE"],
             "A clean and modern payments platform brand.", ["a", "b", "c", "d"]⟩
    ∧ isHex6Upper "#RED" = false := by
  constructor
  · rfl
  · rfl

/-- Witness for claim C3 at a concrete accepted profile. -/
theorem brand_profile_validation_witness :
    (3 ≤ (["#635BFF", "#0A2540", "#00D4FF"] : List String).length
      ∧ (["#635BFF", "#0A2540", "#00D4FF"] : List String).length ≤ 5)
    ∧ (∀ c ∈ (["#635BFF", "#0A2540", "#00D4FF"] : List String),
        jsStartsWithHash c = true ∧ ∀ ch ∈ c.data, isLowerAscii ch = false)
    ∧ 20 ≤ (jsTrim "A clean and modern payments platform brand.").length
    ∧ (["Simple", "Modern", "Trustworthy", "Developer first"] : List String).length = 4 :=
  brand_profile_validation.1
    ⟨some [some "#635bff", some "#0a2540", some "#00d4ff"],
     some "A clean and modern payments platform brand.",
     some ["Simple", "Modern", "Trustworthy", "Developer first"]⟩
    ⟨["#635BFF", "#0A2540", "#00D4FF"],
     "A clean and modern payments platform brand.",
     ["Simple", "Modern", "Trustworthy", "Developer first"]⟩
    rfl

theorem clampScore_mem (s : Option Int) :
    0 ≤ clampScore s 50 ∧ clampScore s 50 ≤ 100 := by
  cases s with
  | none => simp [clampScore]
  | some v => simp only [clampScore]; omega

/-- Claim C4: every audit result produced by the normalization step of
analyzeDesign has its overall score and four sub-scores in 0 to 100; a missing
or non-numeric score defaults to 50; a missing or empty feedback or
recommendation list is replaced by its documented single generic string; both
lists hold at most five entries. -/
theorem design_audit_normalization :
    ∀ a : RawAnalysis,
      ((0 ≤ (analyzeDesignValidate a).score ∧ (analyzeDesignValidate a).score ≤ 100)
       ∧ (0 ≤ (analyzeDesignValidate a).colorConsistency ∧ (analyzeDesignValidate a).colorConsistency ≤ 100)
       ∧ (0 ≤ (analyzeDesignValidate a).typographyScale ∧ (analyzeDesignValidate a).typographyScale ≤ 100)
       ∧ (0 ≤ (analyzeDesignValidate a).spacingRhythm ∧ (analyzeDesignValidate a).spacingRhythm ≤ 100)
       ∧ (0 ≤ (analyzeDesignValidate a).accessibility ∧ (analyzeDesignValidate a).accessibility ≤ 100))
      ∧ ((a.score = none → (analyzeDesignValidate a).score = 50)
       ∧ (a.colorConsistency = none → (analyzeDesignValidate a).colorConsistency = 50)
       ∧ (a.typographyScale = none → (analyzeDesignValidate a).typographyScale = 50)
       ∧ (a.spacingRhythm = none → (analyzeDesignValidate a).spacingRhythm = 50)
       ∧ (a.accessibility = none → (analyzeDesignValidate a).accessibility = 50))
      ∧ (a.feedback = none ∨ a.feedback = some [] →
          (analyzeDesignValidate a).feedback
            = ["Design analysis completed. Review metrics for details."])
      ∧ (a.recommendations = none ∨ a.recommendations = some [] →
          (analyzeDesignValidate a).recommendations
            = ["Continue refining design based on brand guidelines."])
      ∧ (analyzeDesignValidate a).feedback.length ≤ 5
      ∧ (analyzeDesignValidate a).recommendations.length ≤ 5 := by
  intro a
  refine ⟨⟨clampScore_mem _, clampScore_mem _, clampScore_mem _,
           clampScore_mem _, clampScore_mem _⟩,
          ⟨?_, ?_, ?_, ?_, ?_⟩, ?_, ?_, ?_, ?_⟩
  · intro h; simp [analyzeDesignValidate, h, clampScore]
  · intro h; simp [analyzeDesignValidate, h, clampScore]
  · intro h; simp [analyzeDesignValidate, h, clampScore]
  · intro h; simp [analyzeDesignValidate, h, clampScore]
  · intro h; simp [analyzeDesignValidate, h, clampScore]
  · intro h; rcases h with h | h <;> simp [analyzeDesignValidate, h]
  · intro h; rcases h with h | h <;> simp [analyzeDesignValidate, h]
  · cases hf : a.feedback with
    | none => simp [analyzeDesignValidate, hf]
    | some l =>
      cases l with
      | nil => simp [analyzeDesignValidate, hf]
      | cons x xs => simp [analyzeDesignValidate, hf]
  · cases hr : a.recommendations with
    | none => simp [analyzeDesignValidate, hr]
    | some l =>
      cases l with
      | nil => simp [analyzeDesignValidate, hr]
      | cons x xs => simp [analyzeDesignValidate, hr]

/-- Witness for claim C4 at a concrete raw response with a missing overall
score, an out-of-range sub-score, a missing feedback list and an empty
recommendation list. -/
theorem design_audit_normalization_witness :
    (analyzeDesignValidate ⟨none, some 150, some (-3), some 70, none, none, some []⟩).score = 50
    ∧ (analyzeDesignValidate ⟨none, some 150, some (-3), some 70, none, none, some []⟩).feedback
        = ["Design analysis completed. Review metrics for details."]
    ∧ (analyzeDesignValidate ⟨none, some 150, some (-3), some 70, none, none, some []⟩).recommendations
        = ["Continue refining design based on brand guidelines."]
    ∧ (0 ≤ (analyzeDesignValidate ⟨none, some 150, some (-3), some 70, none, none, some []⟩).colorConsistency
        ∧ (analyzeDesignValidate ⟨none, some 150, some (-3), some 70, none, none, some []⟩).colorConsistency ≤ 100) := by
  obtain ⟨hb, hd, hf, hr, _, _⟩ :=
    design_audit_normalization ⟨none, some 150, some (-3), some 70, none, none, some []⟩
  exact ⟨hd.1 rfl, hf (Or.inl rfl), hr (Or.inr rfl), hb.2.1⟩

/-- Claim C5: a lookup returns the stored value exactly when now is before
timestamp plus ttl; a lookup of an expired entry removes it and reports a
miss; a hit leaves the cache unchanged; a lookup never touches other keys, a
miss on an absent key changes nothing, and a store never removes any other
entry, so the only eviction is the lazy one on lookup. -/
theorem cache_ttl_lazy_eviction {α : Type} (now : Int) (c : Cache α) (key : String) :
    (∀ e, c key = some e →
      (((getCachedData now c key).1 = some e.data) ↔ now < e.timestamp + e.ttl))
    ∧ (c key = none → getCachedData now c key = (none, c))
    ∧ (∀ e, c key = some e → ¬now < e.timestamp + e.ttl →
        (getCachedData now c key).1 = none
        ∧ (getCachedData now c key).2 key = none)
    ∧ (∀ e, c key = some e → now < e.timestamp + e.ttl →
        getCachedData now c key = (some e.data, c))
    ∧ (∀ k2, k2 ≠ key → (getCachedData now c key).2 k2 = c k2)
    ∧ (∀ (data : α) (ts ttl : Int) (k2 : String), k2 ≠ key →
        setCachedData c key data ts ttl k2 = c k2) := by
  refine ⟨?_, ?_, ?_, ?_, ?_, ?_⟩
  · intro e he
    by_cases hlt : now - e.timestamp < e.ttl
    · simp only [getCachedData, he, if_pos hlt]
      constructor
      · intro _; omega
      · intro _; trivial
    · simp only [getCachedData, he, if_neg hlt]
      constructor
      · intro hcontra; exact absurd hcontra (by simp)
      · intro hcontra; omega
  · intro he
    simp [getCachedData, he]
  · intro e he hge
    have hlt : ¬now - e.timestamp < e.ttl := by omega
    simp only [getCachedData, he, if_neg hlt]
    exact ⟨trivial, by simp [cacheDelete]⟩
  · intro e he hlt2
    have hlt : now - e.timestamp < e.ttl := by omega
    simp only [getCachedData, he, if_pos hlt]
  · intro k2 hk
    cases he : c key with
    | none => simp [getCachedData, he]
    | some e =>
      by_cases hlt : now - e.timestamp < e.ttl
      · simp [getCachedData, he, if_pos hlt]
      · simp only [getCachedData, he, if_neg hlt]
        simp [cacheDelete, hk]
  · intro data ts ttl k2 hk
    simp [setCachedData, hk]

/-- Witness for claim C5: a hit before expiry and a miss after expiry on a
concrete one-entry cache. -/
theorem cache_ttl_lazy_eviction_witness :
    getCachedData 50
        (fun k => if k = "k1" then some ⟨7, 0, 100⟩ else (none : Option (CacheEntry Nat))) "k1"
      = (some 7, fun k => if k = "k1" then some ⟨7, 0, 100⟩ else none)
    ∧ (getCachedData 200
        (fun k => if k = "k1" then some ⟨7, 0, 100⟩ else (none : Option (CacheEntry Nat))) "k1").1
      = none := by
  have h1 := (cache_ttl_lazy_eviction 50
      (fun k => if k = "k1" then some ⟨7, 0, 100⟩ else (none : Option (CacheEntry Nat)))
      "k1").2.2.2.1 ⟨7, 0, 100⟩ (by simp) (by norm_num)
  have h2 := (cache_ttl_lazy_eviction 200
      (fun k => if k = "k1" then some ⟨7, 0, 100⟩ else (none : Option (CacheEntry Nat)))
      "k1").2.2.1 ⟨7, 0, 100⟩ (by simp) (by norm_num)
  exact ⟨h1, h2.1⟩

theorem brandKey_ne_designKey (l1 : String) (hs : Bool) (c1 : String)
    (l2 i2 : String) (cols2 : List String) :
    brandCacheKey l1 hs c1 ≠ designCacheKey l2 i2 cols2 := by
  intro h
  have hd := congrArg String.data h
  rw [brandCacheKey, designCacheKey] at hd
  simp only [String.data_append] at hd
  simp at hd

/-- Claim C6 (amended): each cache key is a pure function of the operation
kind, the language and the bounded digest the source derives from the subject
content (the first 50 base64 characters of the website content for brand
extraction; the first 20 base64 characters of the image plus the
underscore-joined colors for the design audit), and the key families of the
two caching operations never collide with each other. The further assertion of
the original claim, that two different requests never receive the same key,
is refuted by the counterexample below: requests that agree on the bounded
digest but differ in the full content collide. -/
theorem cache_key_structure :
    (∀ l c1 c2, ∀ hs : Bool, jsSlice (btoa c1) 50 = jsSlice (btoa c2) 50 →
        brandCacheKey l hs c1 = brandCacheKey l hs c2)
    ∧ (∀ l i1 i2 cols, jsSlice (btoa i1) 20 = jsSlice (btoa i2) 20 →
        designCacheKey l i1 cols = designCacheKey l i2 cols)
    ∧ (∀ l1 c1 l2 i2 cols2, ∀ hs : Bool,
        brandCacheKey l1 hs c1 ≠ designCacheKey l2 i2 cols2) := by
  refine ⟨?_, ?_, ?_⟩
  · intro l c1 c2 hs h
    rw [brandCacheKey, brandCacheKey, h]
  · intro l i1 i2 cols h
    rw [designCacheKey, designCacheKey, h]
  · intro l1 c1 l2 i2 cols2 hs
    exact brandKey_ne_designKey l1 hs c1 l2 i2 cols2

/-- Counterexample for claim C6 as stated: two design-audit requests with
different color lists share one key because join with underscore is ambiguous,
and two brand extractions whose contents differ only past the bounded base64
prefix share one key; in both cases the second request would be served the
cached result of the first request. -/
theorem cache_key_structure_counterexample :
    designCacheKey "en" "img" ["#A", "#B_#C"] = designCacheKey "en" "img" ["#A_#B", "#C"]
    ∧ (["#A", "#B_#C"] : List String) ≠ ["#A_#B", "#C"]
    ∧ brandCacheKey "en" false "aaaaaaaaaaaaaaaaaaaaaaaaaaaaaaaaaaaaaaaA"
      = brandCacheKey "en" false "aaaaaaaaaaaaaaaaaaaaaaaaaaaaaaaaaaaaaaaB"
    ∧ ("aaaaaaaaaaaaaaaaaaaaaaaaaaaaaaaaaaaaaaaA" : String)
      ≠ "aaaaaaaaaaaaaaaaaaaaaaaaaaaaaaaaaaaaaaaB" := by
  refine ⟨rfl, by decide, rfl, by decide⟩

/-- Witness for claim C6: the congruence applied at two concrete contents that
agree on the bounded digest. -/
theorem cache_key_structure_witness :
    brandCacheKey "fr" true "aaaaaaaaaaaaaaaaaaaaaaaaaaaaaaaaaaaaaaaC"
      = brandCacheKey "fr" true "aaaaaaaaaaaaaaaaaaaaaaaaaaaaaaaaaaaaaaaD" :=
  cache_key_structure.1 "fr" "aaaaaaaaaaaaaaaaaaaaaaaaaaaaaaaaaaaaaaaC"
    "aaaaaaaaaaaaaaaaaaaaaaaaaaaaaaaaaaaaaaaD" true rfl

/-- Claim C7: the source of extractBrandIdentity declares an AbortSignal
parameter but never reads it, so a cancellation signalled before the network
call resolves has no effect at all: the outcome and the cache write are
identical whether or not the signal is aborted, and in particular a successful
response obtained while the caller has already cancelled is still cached and
returned as a plain success rather than a distinguishable cancelled outcome.
This contradicts the specification, which requires an aborted call, no cache
write and a cancelled outcome. -/
theorem extract_ignores_cancellation :
    (∀ cache now client wc lang (hs : Bool) (it sn : Bool) net (ot : Bool),
        extractBrandIdentity cache now client wc lang hs true it sn net ot
          = extractBrandIdentity cache now client wc lang hs false it sn net ot)
    ∧ (extractBrandIdentity emptyCache 0 (some "key") "cancelled site" "en" false
          true false false
          (.ok ⟨some [some "#AABBCC", some "#112233", some "#445566"],
                some "A voice that is long enough to pass.",
                some ["g1", "g2", "g3", "g4"]⟩) false).1
        = .ok ⟨["#AABBCC", "#112233", "#445566"],
               "A voice that is long enough to pass.", ["g1", "g2", "g3", "g4"]⟩
    ∧ (extractBrandIdentity emptyCache 0 (some "key") "cancelled site" "en" false
          true false false
          (.ok ⟨some [some "#AABBCC", some "#112233", some "#445566"],
                some "A voice that is long enough to pass.",
                some ["g1", "g2", "g3", "g4"]⟩) false).2
          (brandCacheKey "en" false "cancelled site")
        = some ⟨⟨["#AABBCC", "#112233", "#445566"],
                 "A voice that is long enough to pass.", ["g1", "g2", "g3", "g4"]⟩,
                0, defaultTTL⟩ := by
  refine ⟨?_, rfl, ?_⟩
  · intro cache now client wc lang hs it sn net ot
    rfl
  · rfl

/-- Claim C8: both moderation checkers treat empty or non-string input as safe
whatever the classifiers do; when the primary classifier fails or times out
and the fallback also fails, the verdict is the fail-open approve; a failed or
non-ok profanity response is likewise approve; and each checker is a total
boolean function, so no moderation-infrastructure failure ever surfaces as an
error to the caller. -/
theorem moderation_fail_open :
    (∀ tf groq, containsToxicContent none tf groq = false)
    ∧ (∀ tf groq, containsToxicContent (some "") tf groq = false)
    ∧ (∀ t, containsToxicContent (some t) (.error ()) (.error ()) = false)
    ∧ (∀ r, containsExplicitContent none r = false)
    ∧ (∀ r, containsExplicitContent (some "") r = false)
    ∧ (∀ t, containsExplicitContent (some t) (.error ()) = false)
    ∧ (∀ t body, containsExplicitContent (some t) (.ok (false, body)) = false) := by
  refine ⟨fun tf groq => rfl, fun tf groq => rfl, ?_, fun r => rfl, fun r => rfl, ?_, ?_⟩
  · intro t
    by_cases h : t = "" <;> simp [containsToxicContent, h]
  · intro t
    by_cases h : t = "" <;> simp [containsExplicitContent, h]
  · intro t body
    by_cases h : t = "" <;> simp [containsExplicitContent, h]

/-- Claim C9: a missing or blank credential leaves the client unconfigured,
the client check then fails with the configuration error and each of the four
public operations fails with that error wrapped in its own prefix (for the two
caching operations, on any cache without a fresh entry, here the empty cache
of a fresh instance); storing a non-blank credential configures the client
with the trimmed key and a subsequent extraction proceeds to the network
result. -/
theorem api_key_gating :
    (∀ st, setApiKey st none = none)
    ∧ (∀ st k, jsTrim k = "" → setApiKey st (some k) = none)
    ∧ (∀ st k, jsTrim k ≠ "" → setApiKey st (some k) = some (jsTrim k))
    ∧ ensureClient none
        = .error "Groq API key not configured. Set your Groq API key in Settings."
    ∧ (∀ k, ensureClient (some k) = .ok k)
    ∧ (∀ now wc lang net, ∀ hs ab ot : Bool,
        (extractBrandIdentity emptyCache now none wc lang hs ab false false net ot).1
          = .error "Brand analysis failed: Groq API key not configured. Set your Groq API key in Settings.")
    ∧ (∀ (α : Type) (cache : Cache α) net, ∀ ot : Bool,
        (generateFireflyPrompt cache none false false net ot).1
          = .error "Firefly prompt generation failed: Groq API key not configured. Set your Groq API key in Settings.")
    ∧ (∀ (α : Type) (cache : Cache α) net, ∀ ot : Bool,
        (getViralTrends cache none false net ot).1
          = .error "Trend analysis failed: Groq API key not configured. Set your Groq API key in Settings.")
    ∧ (∀ now img lang cols net, ∀ ot : Bool,
        (analyzeDesign emptyCache now none img lang cols false false net ot).1
          = .error "Design analysis failed: Groq API key not configured. Set your Groq API key in Settings.")
    ∧ (∀ k, jsTrim k ≠ "" → ∀ now wc lang raw out, ∀ hs ab : Bool,
        validateBrandData raw = .ok out →
        (extractBrandIdentity emptyCache now (setApiKey none (some k)) wc lang hs ab
            false false (.ok raw) false).1 = .ok out) := by
  refine ⟨fun st => rfl, ?_, ?_, rfl, fun k => rfl, ?_, ?_, ?_, ?_, ?_⟩
  · intro st k h
    simp [setApiKey, h]
  · intro st k h
    simp [setApiKey, h]
  · intro now wc lang net hs ab ot
    simp [extractBrandIdentity, emptyCache, getCachedData, ensureClient]
  · intro α cache net ot
    simp [generateFireflyPrompt, ensureClient]
  · intro α cache net ot
    simp [getViralTrends, ensureClient]
  · intro now img lang cols net ot
    simp [analyzeDesign, emptyCache, getCachedData, ensureClient]
  · intro k hk now wc lang raw out hs ab hval
    simp [extractBrandIdentity, emptyCache, getCachedData, ensureClient,
      setApiKey, hk, hval]

/-- Witness for claim C9: a blank key leaves the client unconfigured and a
concrete extraction then fails with the configuration error; a padded
non-blank key is stored trimmed and a concrete extraction succeeds. -/
theorem api_key_gating_witness :
    setApiKey none (some "   ") = none
    ∧ (extractBrandIdentity emptyCache 0 none "wc" "en" false false false false
        (.error "whatever") false).1
      = .error "Brand analysis failed: Groq API key not configured. Set your Groq API key in Settings."
    ∧ setApiKey none (some " gsk-abc ") = some "gsk-abc"
    ∧ (extractBrandIdentity emptyCache 0 (setApiKey none (some " gsk-abc ")) "wc" "en"
        false false false false
        (.ok ⟨some [some "#AABBCC", some "#112233", some "#445566"],
              some "Another sufficiently long brand voice.",
              some ["p", "q", "r", "s"]⟩) false).1
      = .ok ⟨["#AABBCC", "#112233", "#445566"],
             "Another sufficiently long brand voice.", ["p", "q", "r", "s"]⟩ := by
  refine ⟨api_key_gating.2.1 none "   " (by decide), ?_, ?_, ?_⟩
  · exact api_key_gating.2.2.2.2.2.1 0 "wc" "en" (.error "whatever") false false false
  · have h := api_key_gating.2.2.1 none " gsk-abc " (by decide)
    rw [h]
    rfl
  · exact api_key_gating.2.2.2.2.2.2.2.2.2 " gsk-abc " (by decide) 0 "wc" "en" _ _
      false false rfl

/-- Claim C10: the prompt generator and the trend fetcher leave the cache
exactly as they found it and their outcome is independent of the cache state,
so identical repeated calls still go to the model; by contrast brand
extraction and the design audit read the cache, returning a fresh stored
entry untouched with no regard to the network outcome. -/
theorem cache_bypass_frame :
    (∀ (α : Type) (cache : Cache α) client net, ∀ tt vt ot : Bool,
        (generateFireflyPrompt cache client tt vt net ot).2 = cache)
    ∧ (∀ (α : Type) (c1 c2 : Cache α) client net, ∀ tt vt ot : Bool,
        (generateFireflyPrompt c1 client tt vt net ot).1
          = (generateFireflyPrompt c2 client tt vt net ot).1)
    ∧ (∀ (α : Type) (cache : Cache α) client net, ∀ it ot : Bool,
        (getViralTrends cache client it net ot).2 = cache)
    ∧ (∀ (α : Type) (c1 c2 : Cache α) client net, ∀ it ot : Bool,
        (getViralTrends c1 client it net ot).1 = (getViralTrends c2 client it net ot).1)
    ∧ (∀ cache now client wc lang net e, ∀ hs ab it sn ot : Bool,
        cache (brandCacheKey lang hs wc) = some e → now - e.timestamp < e.ttl →
        extractBrandIdentity cache now client wc lang hs ab it sn net ot
          = (.ok e.data, cache))
    ∧ (∀ cache now client img lang cols net e, ∀ it nsfw ot : Bool,
        cache (designCacheKey lang img cols) = some e → now - e.timestamp < e.ttl →
        analyzeDesign cache now client img lang cols it nsfw net ot
          = (.ok e.data, cache)) := by
  refine ⟨?_, ?_, ?_, ?_, ?_, ?_⟩
  · intro α cache client net tt vt ot
    rw [generateFireflyPrompt.eq_def]
    repeat' split
    all_goals rfl
  · intro α c1 c2 client net tt vt ot
    rw [generateFireflyPrompt.eq_def, generateFireflyPrompt.eq_def]
    repeat' split
    all_goals rfl
  · intro α cache client net it ot
    rw [getViralTrends.eq_def]
    repeat' split
    all_goals rfl
  · intro α c1 c2 client net it ot
    rw [getViralTrends.eq_def, getViralTrends.eq_def]
    repeat' split
    all_goals rfl
  · intro cache now client wc lang net e hs ab it sn ot he hlt
    have hget : getCachedData now cache (brandCacheKey lang hs wc)
        = (some e.data, cache) := by
      simp only [getCachedData, he, if_pos hlt]
    rw [extractBrandIdentity, hget]
  · intro cache now client img lang cols net e it nsfw ot he hlt
    have hget : getCachedData now cache (designCacheKey lang img cols)
        = (some e.data, cache) := by
      simp only [getCachedData, he, if_pos hlt]
    rw [analyzeDesign, hget]

/-- Witness for claim C10: a concrete fresh entry under the brand key is
returned untouched even though the network outcome is an error, and the same
for the design key. -/
theorem cache_bypass_frame_witness :
    extractBrandIdentity
        (fun k => if k = brandCacheKey "en" false "wc"
          then some ⟨⟨["#AABBCC", "#112233", "#445566"], "A cached brand voice entry here.",
                      ["g1", "g2", "g3", "g4"]⟩, 0, 1000⟩
          else none)
        10 none "wc" "en" false false false false (.error "network down") false
      = (.ok ⟨["#AABBCC", "#112233", "#445566"], "A cached brand voice entry here.",
              ["g1", "g2", "g3", "g4"]⟩,
         fun k => if k = brandCacheKey "en" false "wc"
          then some ⟨⟨["#AABBCC", "#112233", "#445566"], "A cached brand voice entry here.",
                      ["g1", "g2", "g3", "g4"]⟩, 0, 1000⟩
          else none)
    ∧ analyzeDesign
        (fun k => if k = designCacheKey "en" "img" ["#AABBCC"]
          then some ⟨⟨80, 80, 80, 80, 80, ["f"], ["r"]⟩, 0, 1000⟩
          else none)
        10 none "img" "en" ["#AABBCC"] false false (.error "network down") false
      = (.ok ⟨80, 80, 80, 80, 80, ["f"], ["r"]⟩,
         fun k => if k = designCacheKey "en" "img" ["#AABBCC"]
          then some ⟨⟨80, 80, 80, 80, 80, ["f"], ["r"]⟩, 0, 1000⟩
          else none) := by
  constructor
  · exact cache_bypass_frame.2.2.2.2.1 _ 10 none "wc" "en" (.error "network down")
      ⟨⟨["#AABBCC", "#112233", "#445566"], "A cached brand voice entry here.",
        ["g1", "g2", "g3", "g4"]⟩, 0, 1000⟩
      false false false false false (by simp) (by norm_num)
  · exact cache_bypass_frame.2.2.2.2.2 _ 10 none "img" "en" ["#AABBCC"]
      (.error "network down") ⟨⟨80, 80, 80, 80, 80, ["f"], ["r"]⟩, 0, 1000⟩
      false false false (by simp) (by norm_num)
